import Mathlib

/-!
Verification of the data-retrieval layer of the simple-twitter-api
repository: the canonical record model (`app/models/tweet.py`), the limit
validator (`app/utils/validators.py`), the synthetic backend
(`app/services/twitter_mock_service.py`) and the pure parsing /
normalization parts of the upstream backend
(`app/services/twitter_api_service.py`), shallowly embedded in Lean.

Python strings are embedded as `String`, Python ints as `Int`, Python
`None`-able values as `Option`, raised `ValueError`s as `Except.error`.
The ambient pseudo-random generator of the `random` module is embedded
abstractly (see `PyRand`), and the wall clock used by the synthetic date
generator is a function parameter.
-/

namespace TwitterApi

/-! ### Python string primitives -/

/-- Removes every leading occurrence of the character `c`, on a character
list.  This is the behaviour of Python's `str.lstrip(c)` with a
single-character argument: `"##x".lstrip('#') == "x"`. -/
def lstripList (c : Char) : List Char → List Char
  | [] => []
  | x :: xs => if x = c then lstripList c xs else x :: xs

/-- Python `s.lstrip(c)` for a single character `c`. -/
def lstripChar (c : Char) (s : String) : String :=
  (lstripList c s.data).asString

/-- Python `str.lower()` (ASCII case folding; all the repository's sample
data and comparisons are ASCII). -/
def pyLower (s : String) : String :=
  (s.data.map Char.toLower).asString

/-- Accumulating splitter for `str.split()`: `cur` is the reversed
current word. -/
def splitWsAux (cur : List Char) : List Char → List (List Char)
  | [] => if cur = [] then [] else [cur.reverse]
  | c :: rest =>
    if c.isWhitespace then
      if cur = [] then splitWsAux [] rest
      else cur.reverse :: splitWsAux [] rest
    else splitWsAux (c :: cur) rest

/-- Python `str.split()` with no argument: split on runs of whitespace,
discarding empty pieces. -/
def splitWs (s : String) : List String :=
  (splitWsAux [] s.data).map List.asString

/-- Python `w.startswith(c)` for a single character. -/
def startsWithChar (c : Char) (w : String) : Bool :=
  match w.data with
  | x :: _ => x = c
  | [] => false

/-- Python `w[1:]`. -/
def strTail (w : String) : String :=
  (w.data.drop 1).asString

/-- Python `s.replace(pat, repl)` for a non-empty pattern: every
non-overlapping occurrence is replaced, scanning left to right.  The
recursion is measured by a fuel argument (each step consumes at least
one character, so fuel equal to the list length is enough); an empty
pattern leaves the list unchanged (the service only replaces `"Z"`). -/
def pyReplaceFuel (pat repl : List Char) : Nat → List Char → List Char
  | 0, l => l
  | fuel + 1, l =>
    match l with
    | [] => []
    | c :: rest =>
      if pat ≠ [] ∧ pat.isPrefixOf (c :: rest) then
        repl ++ pyReplaceFuel pat repl fuel (rest.drop (pat.length - 1))
      else
        c :: pyReplaceFuel pat repl fuel rest

/-- Python `s.replace(pat, repl)`. -/
def pyReplace (s pat repl : String) : String :=
  (pyReplaceFuel pat.data repl.data s.data.length s.data).asString

/-- Python `str.title()` restricted to ASCII: each alphabetic character
that follows a non-alphabetic one is upper-cased, every other alphabetic
character is lower-cased. -/
def pyTitleList : Bool → List Char → List Char
  | _, [] => []
  | prevAlpha, c :: cs =>
    let c2 := if c.isAlpha then (if prevAlpha then c.toLower else c.toUpper) else c
    c2 :: pyTitleList c.isAlpha cs

/-- Python `str.title()` (ASCII). -/
def pyTitle (s : String) : String :=
  (pyTitleList false s.data).asString

/-! ### Python `int(str)` -/

/-- Digit tail of a Python integer literal: after at least one digit has
been read, further digits may be separated by single underscores. -/
def digitsCore (acc : Nat) : List Char → Option Nat
  | [] => some acc
  | c :: rest =>
    if c.isDigit then digitsCore (acc * 10 + (c.toNat - 48)) rest
    else if c = '_' then
      match rest with
      | [] => none
      | d :: rest2 =>
        if d.isDigit then digitsCore (acc * 10 + (d.toNat - 48)) rest2 else none
    else none

/-- An unsigned Python integer literal: a digit followed by digits with
optional single separating underscores. -/
def digitsVal : List Char → Option Nat
  | [] => none
  | c :: rest => if c.isDigit then digitsCore (c.toNat - 48) rest else none

/-- Python `int(s)` on a string: strip surrounding whitespace, read an
optional sign and a digit sequence (underscore separators allowed);
`none` models the raised `ValueError`. -/
def pyInt (s : String) : Option Int :=
  let t := ((s.data.dropWhile Char.isWhitespace).reverse.dropWhile
    Char.isWhitespace).reverse
  match t with
  | '+' :: rest => (digitsVal rest).map Int.ofNat
  | '-' :: rest => (digitsVal rest).map (fun n => -(n : Int))
  | u => (digitsVal u).map Int.ofNat

/-! ### The `random` module, abstractly

`TwitterMockService.__init__` seeds the process-wide Mersenne–Twister
generator (`random.seed(42)`).  The claims under proof never depend on
the concrete draws, only on the guarantees of the `random` API:
`random.randint(lo, hi)` lies in `[lo, hi]` and `random.choice(xs)` is an
element of `xs`.  We therefore embed the generator as an abstract state
with a deterministic linear-congruential `next` step that preserves
exactly those guarantees. -/

structure PyRand where
  seed : Nat
deriving Repr, DecidableEq

/-- One raw draw from the generator. -/
def PyRand.next (st : PyRand) : Nat × PyRand :=
  let s := (st.seed * 6364136223846793005 + 1442695040888963407) % 18446744073709551616
  (s / 65536, ⟨s⟩)

/-- Python `random.randint(lo, hi)`: both bounds inclusive. -/
def randint (lo hi : Int) (st : PyRand) : Int × PyRand :=
  (lo + ((st.next.1 % (hi - lo + 1).toNat : Nat) : Int), st.next.2)

/-- Python `random.choice(xs)` for a non-empty list. -/
def choice [Inhabited α] (xs : List α) (st : PyRand) : α × PyRand :=
  (xs.getD (st.next.1 % xs.length) default, st.next.2)

/-! ### Record model (`app/models/tweet.py`) -/

/-- The `Account` dataclass. -/
structure Account where
  fullname : String
  href : String
  id : Int
deriving Repr, DecidableEq, Inhabited

/-- The `Tweet` dataclass. -/
structure Tweet where
  account : Account
  date : String
  text : String
  replies : Int
  retweets : Int
  likes : Int
  hashtags : List String
deriving Repr, DecidableEq

/-! ### Configuration constants (`config.py`) -/

def DEFAULT_TWEET_LIMIT : Int := 30
def MAX_TWEET_LIMIT : Int := 100
def MIN_TWEET_LIMIT : Int := 1

/-! ### Limit validator (`app/utils/validators.py`) -/

/-- The `validate_limit(limit_str, default=None)` function.  A `none`
raw value returns the default (itself defaulting to
`Config.DEFAULT_TWEET_LIMIT`); a string that does not parse as an
integer, or parses outside `[MIN_TWEET_LIMIT, MAX_TWEET_LIMIT]`, raises
`ValueError`. -/
def validate_limit (limit_str : Option String) (deflt : Option Int) : Except String Int :=
  let d := deflt.getD DEFAULT_TWEET_LIMIT
  match limit_str with
  | none => .ok d
  | some s =>
    match pyInt s with
    | none => .error ("Invalid limit value: " ++ s ++ ". Must be an integer.")
    | some n =>
      if n < MIN_TWEET_LIMIT then
        .error ("Limit must be at least " ++ toString MIN_TWEET_LIMIT)
      else if n > MAX_TWEET_LIMIT then
        .error ("Limit cannot exceed " ++ toString MAX_TWEET_LIMIT)
      else
        .ok n

/-! ### Synthetic backend (`app/services/twitter_mock_service.py`) -/

/-- `TwitterMockService.SAMPLE_ACCOUNTS`. -/
def SAMPLE_ACCOUNTS : List Account := [
  ⟨"Raymond Hettinger", "/raymondh", 14159138⟩,
  ⟨"Guido van Rossum", "/gvanrossum", 10945672⟩,
  ⟨"Python Software", "/ThePSF", 63873759⟩,
  ⟨"Real Python", "/realpython", 752486881⟩,
  ⟨"Python Weekly", "/PythonWeekly", 315766685⟩,
  ⟨"Twitter", "/Twitter", 783214⟩,
  ⟨"Tech News", "/technews", 123456789⟩,
  ⟨"Code Academy", "/codeacademy", 987654321⟩]

/-- `TwitterMockService.SAMPLE_TEXTS`. -/
def SAMPLE_TEXTS : List String := [
  "Just released a new #Python library for data processing! Check it out: github.com/example",
  "Historically, bash filename pattern matching was known as \"globbing\". Hence, the #python module called \"glob\".",
  "Excited to announce our new feature! #technology #innovation",
  "Working on some amazing #Python projects today. The productivity is real!",
  "Powerful voices. Inspiring women. #InternationalWomensDay",
  "New blog post about #programming best practices. Link in bio!",
  "Just deployed our latest microservice using #Python 3.12. Performance improvements are incredible!",
  "Anyone else loving the new features in Python 3.13? #python #coding",
  "Great conference talk today about #softwaredevelopment and #agile methodologies",
  "Remember: premature optimization is the root of all evil. #programming #python"]

/-- Stateful iteration of the body of a `for i in range(limit)` loop that
appends one element per iteration while threading the generator state. -/
def statefulMap (f : Nat → PyRand → Tweet × PyRand) :
    List Nat → PyRand → List Tweet × PyRand
  | [], st => ([], st)
  | i :: is, st =>
    let p := f i st
    let q := statefulMap f is p.2
    (p.1 :: q.1, q.2)

/-- The hashtag key actually used internally by
`TwitterMockService.get_tweets_by_hashtag` (line 69):
`hashtag.lstrip('#').lower()`. -/
def normalize_hashtag (hashtag : String) : String :=
  pyLower (lstripChar '#' hashtag)

/-- Extraction of the `#`-tokens of a text, lower-cased and with the
marker dropped (line 80 of the mock service). -/
def extract_hashtags_lower (text : String) : List String :=
  ((splitWs text).filter (startsWithChar '#')).map (fun w => pyLower (strTail w))

/-- One iteration of the generation loop of
`TwitterMockService.get_tweets_by_hashtag` (lines 72–97): pick a random
account and base text, force the requested tag into the hashtag set
(prepending it and appending a `#tag` line to the text when absent), and
draw the three engagement metrics.  `gd` stands for
`self._generate_date`, whose output depends on the ambient clock. -/
def mkHashtagTweet (gd : Nat → String) (tag : String) (i : Nat) (st : PyRand) :
    Tweet × PyRand :=
  let accountDraw := choice SAMPLE_ACCOUNTS st
  let textDraw := choice SAMPLE_TEXTS accountDraw.2
  let existing := extract_hashtags_lower textDraw.1
  let augmented :=
    if tag ∈ existing then (existing, textDraw.1)
    else (tag :: existing, textDraw.1 ++ "\n#" ++ tag)
  let repliesDraw := randint 0 500 textDraw.2
  let retweetsDraw := randint 0 1000 repliesDraw.2
  let likesDraw := randint 0 5000 retweetsDraw.2
  (⟨accountDraw.1, gd i, augmented.2, repliesDraw.1, retweetsDraw.1, likesDraw.1,
    augmented.1.map (fun t => "#" ++ t)⟩, likesDraw.2)

/-- `TwitterMockService.get_tweets_by_hashtag(hashtag, limit)`.  An empty
hashtag raises `ValueError`; otherwise the key is normalized and `limit`
tweets are generated (`range(limit)` is empty for `limit ≤ 0`). -/
def mock_get_tweets_by_hashtag (gd : Nat → String) (st : PyRand)
    (hashtag : String) (limit : Int) : Except String (List Tweet × PyRand) :=
  if hashtag = "" then .error "Hashtag cannot be empty"
  else .ok (statefulMap (mkHashtagTweet gd (normalize_hashtag hashtag))
    (List.range limit.toNat) st)

/-- The username key actually used internally by
`TwitterMockService.get_user_tweets` (line 116): `username.lstrip('@')`. -/
def normalize_username (username : String) : String :=
  lstripChar '@' username

/-- The sample-pool lookup of `TwitterMockService.get_user_tweets`
(lines 119–122): first account whose `href`, slash-stripped and
lower-cased, equals the lower-cased normalized username. -/
def findAccount (u : String) : Option Account :=
  SAMPLE_ACCOUNTS.find? (fun acc => pyLower (lstripChar '/' acc.href) == pyLower u)

/-- One iteration of the generation loop of
`TwitterMockService.get_user_tweets` (lines 134–151): random base text,
raw `#`-tokens as hashtags, random metrics, shared account. -/
def mkUserTweet (gd : Nat → String) (account : Account) (i : Nat) (st : PyRand) :
    Tweet × PyRand :=
  let textDraw := choice SAMPLE_TEXTS st
  let hashtags := (splitWs textDraw.1).filter (startsWithChar '#')
  let repliesDraw := randint 0 500 textDraw.2
  let retweetsDraw := randint 0 1000 repliesDraw.2
  let likesDraw := randint 0 5000 retweetsDraw.2
  (⟨account, gd i, textDraw.1, repliesDraw.1, retweetsDraw.1, likesDraw.1,
    hashtags⟩, likesDraw.2)

/-- `TwitterMockService.get_user_tweets(username, limit)`.  An empty
username raises `ValueError`; otherwise the account is resolved once —
from the sample pool when the handle matches case-insensitively, freshly
synthesized otherwise — and `limit` tweets are generated with it. -/
def mock_get_user_tweets (gd : Nat → String) (st : PyRand)
    (username : String) (limit : Int) : Except String (List Tweet × PyRand) :=
  if username = "" then .error "Username cannot be empty"
  else
    let u := normalize_username username
    let resolved : Account × PyRand :=
      match findAccount u with
      | some acc => (acc, st)
      | none =>
        let idDraw := randint 1000000 99999999 st
        (⟨pyTitle u, "/" ++ u, idDraw.1⟩, idDraw.2)
    .ok (statefulMap (mkUserTweet gd resolved.1) (List.range limit.toNat) resolved.2)

/-! ### Upstream backend (`app/services/twitter_api_service.py`)

Only the pure parts are embedded: input validation and normalization
(`get_tweets_by_hashtag` lines 74–81, `get_user_tweets` lines 149–153,
the `max_results` clamp of line 86), payload parsing
(`_parse_tweets_response`) and date reformatting (`_format_date`).  The
HTTP requests themselves are external I/O. -/

/-- The validation-and-normalization prefix of
`TwitterAPIService.get_tweets_by_hashtag` (lines 74–78): an empty
hashtag raises `ValueError`, otherwise the leading markers are stripped
and the stripped tag is used for the query. -/
def api_validate_hashtag (hashtag : String) : Except String String :=
  if hashtag = "" then .error "Hashtag cannot be empty"
  else .ok (lstripChar '#' hashtag)

/-- The validation-and-normalization prefix of
`TwitterAPIService.get_user_tweets` (lines 149–153). -/
def api_validate_username (username : String) : Except String String :=
  if username = "" then .error "Username cannot be empty"
  else .ok (lstripChar '@' username)

/-- The `max_results` request parameter: `min(limit, 100)` (line 86);
the limit itself is never range-checked by the service. -/
def api_max_results (limit : Int) : Int :=
  min limit 100

/-- A parsed (timezone-validated but timezone-forgetting) Python
`datetime` as produced by `datetime.fromisoformat`; only the fields that
`strftime("%-I:%M %p - %-d %b %Y")` renders are kept, plus the second. -/
structure PyDateTime where
  year : Nat
  month : Nat
  day : Nat
  hour : Nat
  minute : Nat
  second : Nat
deriving Repr, DecidableEq

/-- Two decimal digits at the head of the list. -/
def digit2 : List Char → Option (Nat × List Char)
  | a :: b :: rest =>
    if a.isDigit ∧ b.isDigit then some ((a.toNat - 48) * 10 + (b.toNat - 48), rest)
    else none
  | _ => none

/-- Four decimal digits at the head of the list. -/
def digit4 : List Char → Option (Nat × List Char)
  | a :: b :: c :: d :: rest =>
    if a.isDigit ∧ b.isDigit ∧ c.isDigit ∧ d.isDigit then
      some (((a.toNat - 48) * 10 + (b.toNat - 48)) * 100
        + (c.toNat - 48) * 10 + (d.toNat - 48), rest)
    else none
  | _ => none

/-- Expects the character `c` at the head of the list. -/
def expectChar (c : Char) : List Char → Option (List Char)
  | x :: rest => if x = c then some rest else none
  | [] => none

/-- An optional fractional-seconds field: a dot followed by one to six
digits; absent is fine. -/
def parseFrac : List Char → Option (List Char)
  | '.' :: rest =>
    let ds := rest.takeWhile Char.isDigit
    if 1 ≤ ds.length ∧ ds.length ≤ 6 then some (rest.dropWhile Char.isDigit)
    else none
  | l => some l

/-- An optional trailing UTC-offset field `±HH:MM` (this is what the
service's `replace('Z', '+00:00')` pre-step produces for a trailing
Zulu marker); the offset value is validated and discarded, since
`strftime` renders the stored wall-clock fields without conversion. -/
def parseTzEnd : List Char → Bool
  | [] => true
  | c :: rest =>
    if c = '+' ∨ c = '-' then
      match digit2 rest with
      | none => false
      | some (hh, r1) =>
        match expectChar ':' r1 with
        | none => false
        | some r2 =>
          match digit2 r2 with
          | none => false
          | some (mm, r3) => decide (r3 = [] ∧ hh ≤ 23 ∧ mm ≤ 59)
    else false

/-- The time-of-day part `HH[:MM[:SS[.ffffff]]][±HH:MM]` of an ISO-8601
string, after the date/time separator. -/
def parseTimePart : List Char → Option (Nat × Nat × Nat)
  | l => do
    let (h, r1) ← digit2 l
    match r1 with
    | ':' :: r2 => do
      let (mi, r3) ← digit2 r2
      match r3 with
      | ':' :: r4 => do
        let (se, r5) ← digit2 r4
        let r6 ← parseFrac r5
        if parseTzEnd r6 then some (h, mi, se) else none
      | r4 => if parseTzEnd r4 then some (h, mi, 0) else none
    | r2 => if parseTzEnd r2 then some (h, 0, 0) else none

/-- Gregorian leap-year test. -/
def isLeap (y : Nat) : Bool :=
  (y % 4 == 0 && y % 100 != 0) || y % 400 == 0

/-- Number of days in a month. -/
def daysInMonth (y m : Nat) : Nat :=
  if m = 2 then (if isLeap y then 29 else 28)
  else if m = 4 ∨ m = 6 ∨ m = 9 ∨ m = 11 then 30
  else 31

/-- Python `datetime.fromisoformat`: `YYYY-MM-DD[*HH[:MM[:SS[.f+]]][±HH:MM]]`
with all field ranges validated; `none` models the raised `ValueError`. -/
def fromisoformat (s : String) : Option PyDateTime := do
  let (y, r1) ← digit4 s.data
  let r2 ← expectChar '-' r1
  let (mo, r3) ← digit2 r2
  let r4 ← expectChar '-' r3
  let (d, r5) ← digit2 r4
  let hms ← match r5 with
    | [] => some ((0, 0, 0) : Nat × Nat × Nat)
    | _ :: r6 => parseTimePart r6
  if 1 ≤ y ∧ 1 ≤ mo ∧ mo ≤ 12 ∧ 1 ≤ d ∧ d ≤ daysInMonth y mo
      ∧ hms.1 ≤ 23 ∧ hms.2.1 ≤ 59 ∧ hms.2.2 ≤ 59 then
    some ⟨y, mo, d, hms.1, hms.2.1, hms.2.2⟩
  else none

/-- English month abbreviations for `%b`. -/
def MONTH_ABBREV : List String :=
  ["Jan", "Feb", "Mar", "Apr", "May", "Jun",
   "Jul", "Aug", "Sep", "Oct", "Nov", "Dec"]

/-- Zero-padded two-digit rendering for `%M`. -/
def pad2 (n : Nat) : String :=
  if n < 10 then "0" ++ toString n else toString n

/-- `strftime("%-I:%M %p - %-d %b %Y")`: 12-hour clock without padding,
zero-padded minutes, AM/PM, unpadded day, month abbreviation, year. -/
def strftimeDisplay (dt : PyDateTime) : String :=
  let h12 := if dt.hour % 12 = 0 then 12 else dt.hour % 12
  let ampm := if dt.hour < 12 then "AM" else "PM"
  toString h12 ++ ":" ++ pad2 dt.minute ++ " " ++ ampm ++ " - "
    ++ toString dt.day ++ " " ++ MONTH_ABBREV.getD (dt.month - 1) ""
    ++ " " ++ toString dt.year

/-- `TwitterAPIService._format_date(iso_date)`: replace every `Z` by
`+00:00`, try `fromisoformat`, render on success, and on any parse
failure return the original string unchanged. -/
def format_date (iso_date : String) : String :=
  match fromisoformat (pyReplace iso_date "Z" "+00:00") with
  | some dt => strftimeDisplay dt
  | none => iso_date

/-- An entry of the upstream `includes.users` expansion array. -/
structure UpstreamUser where
  id : String
  name : Option String
  username : Option String
deriving Repr, DecidableEq

/-- The upstream `public_metrics` sub-object; absent counts are `none`. -/
structure UpstreamMetrics where
  reply_count : Option Int
  retweet_count : Option Int
  like_count : Option Int
deriving Repr, DecidableEq

/-- One item of the upstream `data` array. -/
structure UpstreamTweet where
  author_id : Option String
  public_metrics : Option UpstreamMetrics
  text : Option String
  created_at : Option String
deriving Repr, DecidableEq

/-- An upstream response payload: an optional `data` array and an
optional `includes.users` expansion array (`none` models the key being
absent, collapsing the two-level `'includes' in data and 'users' in
data['includes']` check). -/
structure UpstreamPayload where
  data : Option (List UpstreamTweet)
  includes_users : Option (List UpstreamUser)
deriving Repr, DecidableEq

/-- The `users` dict of `_parse_tweets_response` (lines 231–234), as a
lookup function: keyed by user id, later entries overwriting earlier
ones as Python dict assignment does. -/
def lookupUser (payload : UpstreamPayload) (aid : String) : Option UpstreamUser :=
  match payload.includes_users with
  | none => none
  | some us => us.reverse.find? (fun u => u.id == aid)

/-- The body of the per-item loop of
`TwitterAPIService._parse_tweets_response` (lines 236–268): resolve the
author from the lookup (falling back to `Unknown`/`unknown`/id `0`),
default absent metrics to `0`, extract raw `#`-tokens from the text, and
reformat the creation date.  A truthy non-numeric `author_id` raises
`ValueError` from `int()`. -/
def parseTweetItem (users : String → Option UpstreamUser) (t : UpstreamTweet) :
    Except String Tweet :=
  let author_id := t.author_id
  let author_info := match author_id with
    | some a => users a
    | none => none
  let idParsed : Except String Int :=
    match author_id with
    | none => .ok 0
    | some a =>
      if a = "" then .ok 0
      else match pyInt a with
        | some n => .ok n
        | none => .error ("invalid literal for int() with base 10: " ++ a)
  match idParsed with
  | .error e => .error e
  | .ok idv =>
    let fullname := match author_info with
      | some u => u.name.getD "Unknown"
      | none => "Unknown"
    let uname := match author_info with
      | some u => u.username.getD "unknown"
      | none => "unknown"
    let text := t.text.getD ""
    let hashtags := (splitWs text).filter (startsWithChar '#')
    .ok ⟨⟨fullname, "/" ++ uname, idv⟩,
      format_date (t.created_at.getD ""), text,
      (match t.public_metrics with | some m => m.reply_count.getD 0 | none => 0),
      (match t.public_metrics with | some m => m.retweet_count.getD 0 | none => 0),
      (match t.public_metrics with | some m => m.like_count.getD 0 | none => 0),
      hashtags⟩

/-- `TwitterAPIService._parse_tweets_response(data)`: a payload without a
`data` key yields the empty list; otherwise every item is normalized in
order, a raised error aborting the whole call. -/
def parse_tweets_response (payload : UpstreamPayload) : Except String (List Tweet) :=
  match payload.data with
  | none => .ok []
  | some items => items.mapM (parseTweetItem (lookupUser payload))

/-! ### Helper lemmas -/

/-- A concrete date renderer standing in for `_generate_date` in witness
instances (the claims under proof never constrain the date strings). -/
def fixedDate : Nat → String := fun i => toString i

lemma lstripList_eq_dropWhile (c : Char) (l : List Char) :
    lstripList c l = l.dropWhile (fun x => x == c) := by
  induction l with
  | nil => rfl
  | cons x xs ih =>
    by_cases h : x = c
    · simp [lstripList, List.dropWhile_cons, h, ih]
    · simp [lstripList, List.dropWhile_cons, h, ih]

lemma statefulMap_length (f : Nat → PyRand → Tweet × PyRand) (l : List Nat)
    (st : PyRand) : (statefulMap f l st).1.length = l.length := by
  induction l generalizing st with
  | nil => rfl
  | cons i is ih => simp [statefulMap, ih]

lemma statefulMap_mem (f : Nat → PyRand → Tweet × PyRand) (l : List Nat)
    (st : PyRand) (t : Tweet) (h : t ∈ (statefulMap f l st).1) :
    ∃ i s2, i ∈ l ∧ t = (f i s2).1 := by
  induction l generalizing st with
  | nil => simp [statefulMap] at h
  | cons i is ih =>
    simp only [statefulMap, List.mem_cons] at h
    rcases h with h | h
    · exact ⟨i, st, List.mem_cons_self i is, h⟩
    · obtain ⟨j, s2, hj, ht⟩ := ih _ h
      exact ⟨j, s2, List.mem_cons_of_mem _ hj, ht⟩

lemma mkHashtagTweet_mem_hashtags (gd : Nat → String) (tag : String) (i : Nat)
    (st : PyRand) : ("#" ++ tag) ∈ ((mkHashtagTweet gd tag i st).1).hashtags := by
  unfold mkHashtagTweet
  by_cases h : tag ∈ extract_hashtags_lower (choice SAMPLE_TEXTS (choice SAMPLE_ACCOUNTS st).2).1
  · simp only [if_pos h, List.mem_map]
    exact ⟨tag, h, rfl⟩
  · simp only [if_neg h, List.mem_map]
    exact ⟨tag, List.mem_cons_self _ _, rfl⟩

lemma mkUserTweet_account (gd : Nat → String) (a : Account) (i : Nat)
    (st : PyRand) : ((mkUserTweet gd a i st).1).account = a := rfl

lemma randint_range (lo hi : Int) (st : PyRand) (h : lo ≤ hi) :
    lo ≤ (randint lo hi st).1 ∧ (randint lo hi st).1 ≤ hi := by
  unfold randint
  have hkpos : 0 < (hi - lo + 1).toNat := by omega
  have hm : st.next.1 % (hi - lo + 1).toNat < (hi - lo + 1).toNat :=
    Nat.mod_lt _ hkpos
  have hcast : ((st.next.1 % (hi - lo + 1).toNat : Nat) : Int)
      < ((hi - lo + 1).toNat : Int) := by exact_mod_cast hm
  have hnn : (0 : Int) ≤ ((st.next.1 % (hi - lo + 1).toNat : Nat) : Int) :=
    Int.ofNat_nonneg _
  omega

/-- Shape of a successful synthetic hashtag retrieval: `limit.toNat`
tweets, each containing the forced tag among its hashtags. -/
lemma mock_hashtag_spec (gd : Nat → String) (st : PyRand) (hashtag : String)
    (limit : Int) (h : hashtag ≠ "") :
    ∃ l st2, mock_get_tweets_by_hashtag gd st hashtag limit = .ok (l, st2) ∧
      l.length = limit.toNat ∧
      ∀ t ∈ l, ("#" ++ normalize_hashtag hashtag) ∈ t.hashtags := by
  refine ⟨(statefulMap (mkHashtagTweet gd (normalize_hashtag hashtag))
      (List.range limit.toNat) st).1,
    (statefulMap (mkHashtagTweet gd (normalize_hashtag hashtag))
      (List.range limit.toNat) st).2, ?_, ?_, ?_⟩
  · simp only [mock_get_tweets_by_hashtag, if_neg h]
  · simpa using statefulMap_length (mkHashtagTweet gd (normalize_hashtag hashtag))
      (List.range limit.toNat) st
  · intro t ht
    obtain ⟨i, s2, _, rfl⟩ := statefulMap_mem _ _ _ _ ht
    exact mkHashtagTweet_mem_hashtags _ _ _ _

/-- Shape of a successful synthetic user-timeline retrieval: the account
is resolved once and shared by all `limit.toNat` tweets; a pool match is
reused, otherwise a synthesized account with titled fullname, slash
profile path and pseudo-random id in range is produced. -/
lemma mock_user_spec (gd : Nat → String) (st : PyRand) (username : String)
    (limit : Int) (h : username ≠ "") :
    ∃ l st2 a, mock_get_user_tweets gd st username limit = .ok (l, st2) ∧
      l.length = limit.toNat ∧ (∀ t ∈ l, t.account = a) ∧
      ((∃ acc, findAccount (normalize_username username) = some acc ∧ a = acc) ∨
        (findAccount (normalize_username username) = none ∧
          a.fullname = pyTitle (normalize_username username) ∧
          a.href = "/" ++ normalize_username username ∧
          1000000 ≤ a.id ∧ a.id ≤ 99999999)) := by
  cases hfa : findAccount (normalize_username username) with
  | some acc =>
    refine ⟨(statefulMap (mkUserTweet gd acc) (List.range limit.toNat) st).1,
      (statefulMap (mkUserTweet gd acc) (List.range limit.toNat) st).2, acc,
      ?_, ?_, ?_, Or.inl ⟨acc, rfl, rfl⟩⟩
    · simp only [mock_get_user_tweets, if_neg h, hfa]
    · simpa using statefulMap_length (mkUserTweet gd acc) (List.range limit.toNat) st
    · intro t ht
      obtain ⟨i, s2, _, rfl⟩ := statefulMap_mem _ _ _ _ ht
      rfl
  | none =>
    have hr := randint_range 1000000 99999999 st (by omega)
    refine ⟨(statefulMap (mkUserTweet gd
        ⟨pyTitle (normalize_username username), "/" ++ normalize_username username,
          (randint 1000000 99999999 st).1⟩)
        (List.range limit.toNat) (randint 1000000 99999999 st).2).1,
      (statefulMap (mkUserTweet gd
        ⟨pyTitle (normalize_username username), "/" ++ normalize_username username,
          (randint 1000000 99999999 st).1⟩)
        (List.range limit.toNat) (randint 1000000 99999999 st).2).2,
      ⟨pyTitle (normalize_username username), "/" ++ normalize_username username,
        (randint 1000000 99999999 st).1⟩,
      ?_, ?_, ?_, Or.inr ⟨rfl, rfl, rfl, hr.1, hr.2⟩⟩
    · simp only [mock_get_user_tweets, if_neg h, hfa]
    · simpa using statefulMap_length _ (List.range limit.toNat) _
    · intro t ht
      obtain ⟨i, s2, _, rfl⟩ := statefulMap_mem _ _ _ _ ht
      rfl

/-! ### Claim theorems -/

/-- C1: for every limit `n` with `1 ≤ n ≤ 100` and every non-empty key,
the synthetic backend's `get_tweets_by_hashtag(tag, n)` and
`get_user_tweets(handle, n)` each return a list of exactly `n` tweets. -/
theorem mock_limit_exact (gd : Nat → String) (st : PyRand) (tag handle : String)
    (n : Int) (htag : tag ≠ "") (hh : handle ≠ "") (h1 : 1 ≤ n) (h2 : n ≤ 100) :
    (∃ l st2, mock_get_tweets_by_hashtag gd st tag n = .ok (l, st2) ∧
      (l.length : Int) = n) ∧
    (∃ l st2, mock_get_user_tweets gd st handle n = .ok (l, st2) ∧
      (l.length : Int) = n) := by
  constructor
  · obtain ⟨l, st2, he, hl, _⟩ := mock_hashtag_spec gd st tag n htag
    exact ⟨l, st2, he, by rw [hl]; omega⟩
  · obtain ⟨l, st2, a, he, hl, _, _⟩ := mock_user_spec gd st handle n hh
    exact ⟨l, st2, he, by rw [hl]; omega⟩

/-- Witness for C1 at tag "python", handle "twitter", limit 5. -/
theorem mock_limit_exact_witness :
    (("python" : String) ≠ "" ∧ ("twitter" : String) ≠ "" ∧
      (1 : Int) ≤ 5 ∧ (5 : Int) ≤ 100) ∧
    (∃ l st2, mock_get_tweets_by_hashtag fixedDate ⟨42⟩ "python" 5 = .ok (l, st2) ∧
      (l.length : Int) = 5) ∧
    (∃ l st2, mock_get_user_tweets fixedDate ⟨42⟩ "twitter" 5 = .ok (l, st2) ∧
      (l.length : Int) = 5) :=
  ⟨⟨by decide, by decide, by decide, by decide⟩,
    mock_limit_exact fixedDate ⟨42⟩ "python" "twitter" 5
      (by decide) (by decide) (by decide) (by decide)⟩

/-- C2: every tweet returned by the synthetic hashtag search carries
`"#" ++ normalize_hashtag tag` among its hashtags; the normalized tag is
lower-cased, so exact membership holds and is in particular
case-insensitive membership. -/
theorem mock_hashtag_contains_tag (gd : Nat → String) (st : PyRand)
    (tag : String) (n : Int) (htag : tag ≠ "") (_hn : 1 ≤ n) :
    ∃ l st2, mock_get_tweets_by_hashtag gd st tag n = .ok (l, st2) ∧
      ∀ t ∈ l, ("#" ++ normalize_hashtag tag) ∈ t.hashtags := by
  obtain ⟨l, st2, he, _, hm⟩ := mock_hashtag_spec gd st tag n htag
  exact ⟨l, st2, he, hm⟩

/-- Witness for C2 at tag "Python", limit 3. -/
theorem mock_hashtag_contains_tag_witness :
    (("Python" : String) ≠ "" ∧ (1 : Int) ≤ 3) ∧
    (∃ l st2, mock_get_tweets_by_hashtag fixedDate ⟨42⟩ "Python" 3 = .ok (l, st2) ∧
      ∀ t ∈ l, ("#" ++ normalize_hashtag "Python") ∈ t.hashtags) :=
  ⟨⟨by decide, by decide⟩,
    mock_hashtag_contains_tag fixedDate ⟨42⟩ "Python" 3 (by decide) (by decide)⟩

/-- The upstream payload of the normalization scenario: one item with
author `987654321`, the `#python` text and the 5/10/50 metrics, plus the
matching expansion user `Test User`. -/
def samplePayload : UpstreamPayload :=
  ⟨some [⟨some "987654321", some ⟨some 5, some 10, some 50⟩,
    some "This is a test tweet #python", some "2023-03-15T14:30:00.000Z"⟩],
   some [⟨"987654321", some "Test User", some "testuser"⟩]⟩

/-- The same payload with the metrics object absent. -/
def samplePayloadNoMetrics : UpstreamPayload :=
  ⟨some [⟨some "987654321", none,
    some "This is a test tweet #python", some "2023-03-15T14:30:00.000Z"⟩],
   some [⟨"987654321", some "Test User", some "testuser"⟩]⟩

/-- C3: normalizing the sample upstream payload produces exactly one
tweet with unchanged text, fullname "Test User", likes 50, retweets 10,
replies 5 and "#python" among the hashtags; absent metric fields default
to 0. -/
theorem parse_response_normalizes :
    parse_tweets_response samplePayload =
      .ok [⟨⟨"Test User", "/testuser", 987654321⟩, "2:30 PM - 15 Mar 2023",
        "This is a test tweet #python", 5, 10, 50, ["#python"]⟩] ∧
    (∃ t, parse_tweets_response samplePayloadNoMetrics = .ok [t] ∧
      t.replies = 0 ∧ t.retweets = 0 ∧ t.likes = 0) := by
  exact ⟨rfl, ⟨_, rfl, rfl, rfl, rfl⟩⟩

/-- C4: `_format_date` is total: for every input string it either parses
the `Z`-to-`+00:00` rewritten value as ISO-8601 and renders it in the
display format, or returns the original raw string unchanged; in
particular a trailing Zulu marker is accepted and a junk string passes
through. -/
theorem format_date_total :
    (∀ s : String,
      (∃ dt, fromisoformat (pyReplace s "Z" "+00:00") = some dt ∧
        format_date s = strftimeDisplay dt) ∨
      (fromisoformat (pyReplace s "Z" "+00:00") = none ∧ format_date s = s)) ∧
    format_date "2023-03-15T14:30:00.000Z" = "2:30 PM - 15 Mar 2023" ∧
    format_date "not-a-date" = "not-a-date" := by
  refine ⟨?_, by decide, by decide⟩
  intro s
  cases h : fromisoformat (pyReplace s "Z" "+00:00") with
  | some dt => exact Or.inl ⟨dt, rfl, by simp [format_date, h]⟩
  | none => exact Or.inr ⟨rfl, by simp [format_date, h]⟩

/-- C5 counterexample: a key consisting of only the marker character is
NOT rejected — the emptiness check runs before stripping, so "#" and
"@" pass validation on both backends and records are produced. -/
theorem marker_only_key_not_rejected :
    (mock_get_tweets_by_hashtag fixedDate ⟨42⟩ "#" 1).isOk = true ∧
    (mock_get_user_tweets fixedDate ⟨42⟩ "@" 1).isOk = true ∧
    api_validate_hashtag "#" = .ok "" ∧
    api_validate_username "@" = .ok "" := by
  exact ⟨by decide, by decide, rfl, rfl⟩

/-- C5 amended: only the fully-empty key fails with InvalidInput (the
check precedes marker stripping); every non-empty key, marker-only ones
included, passes validation on every implementation. -/
theorem empty_key_rejected (gd : Nat → String) (st : PyRand) (n : Int)
    (s : String) (hs : s ≠ "") :
    mock_get_tweets_by_hashtag gd st "" n = .error "Hashtag cannot be empty" ∧
    mock_get_user_tweets gd st "" n = .error "Username cannot be empty" ∧
    api_validate_hashtag "" = .error "Hashtag cannot be empty" ∧
    api_validate_username "" = .error "Username cannot be empty" ∧
    (mock_get_tweets_by_hashtag gd st s n).isOk = true ∧
    (mock_get_user_tweets gd st s n).isOk = true ∧
    (api_validate_hashtag s).isOk = true ∧
    (api_validate_username s).isOk = true := by
  refine ⟨rfl, rfl, rfl, rfl, ?_, ?_, ?_, ?_⟩
  · obtain ⟨l, st2, he, -, -⟩ := mock_hashtag_spec gd st s n hs
    rw [he]
    rfl
  · obtain ⟨l, st2, a, he, -, -, -⟩ := mock_user_spec gd st s n hs
    rw [he]
    rfl
  · simp only [api_validate_hashtag, if_neg hs]
    rfl
  · simp only [api_validate_username, if_neg hs]
    rfl

/-- Witness for the amended C5 at key "x", limit 1. -/
theorem empty_key_rejected_witness :
    (("x" : String) ≠ "") ∧
    (mock_get_tweets_by_hashtag fixedDate ⟨42⟩ "" 1 = .error "Hashtag cannot be empty" ∧
     mock_get_user_tweets fixedDate ⟨42⟩ "" 1 = .error "Username cannot be empty" ∧
     api_validate_hashtag "" = .error "Hashtag cannot be empty" ∧
     api_validate_username "" = .error "Username cannot be empty" ∧
     (mock_get_tweets_by_hashtag fixedDate ⟨42⟩ "x" 1).isOk = true ∧
     (mock_get_user_tweets fixedDate ⟨42⟩ "x" 1).isOk = true ∧
     (api_validate_hashtag "x").isOk = true ∧
     (api_validate_username "x").isOk = true) :=
  ⟨by decide, empty_key_rejected fixedDate ⟨42⟩ 1 "x" (by decide)⟩

/-- C6 counterexample: normalization strips EVERY leading marker, not at
most one: "##python" yields the internal key "python", not "#python";
likewise "@@user" yields "user". -/
theorem double_marker_fully_stripped :
    api_validate_hashtag "##python" = .ok "python" ∧
    ("python" : String) ≠ "#python" ∧
    normalize_username "@@user" = "user" ∧
    ("user" : String) ≠ "@user" := by
  exact ⟨rfl, by decide, rfl, by decide⟩

/-- C6 amended: the internal key equals the input with ALL leading
marker characters removed (and, for the synthetic tag key, lower-cased);
a single leading marker is still removed as the claim's examples
require. -/
theorem normalize_strips_all_markers :
    (∀ s, normalize_username s = (s.data.dropWhile (fun c => c == '@')).asString) ∧
    (∀ s, normalize_hashtag s =
      pyLower (s.data.dropWhile (fun c => c == '#')).asString) ∧
    normalize_hashtag "#Python" = "python" ∧
    normalize_hashtag "Python" = "python" ∧
    normalize_username "@twitter" = "twitter" ∧
    normalize_username "@@user" = "user" := by
  refine ⟨?_, ?_, by decide, by decide, by decide, by decide⟩
  · intro s
    simp [normalize_username, lstripChar, lstripList_eq_dropWhile]
  · intro s
    simp [normalize_hashtag, lstripChar, lstripList_eq_dropWhile]

/-- C7: `validate_limit` returns the default on an absent raw value,
fails on a non-integer or out-of-range value, and returns the parsed
integer unchanged otherwise, with the claim's concrete instances. -/
theorem validate_limit_spec :
    validate_limit (some "50") (some 30) = .ok 50 ∧
    validate_limit none (some 30) = .ok 30 ∧
    validate_limit (some "1") (some 30) = .ok 1 ∧
    validate_limit (some "100") (some 30) = .ok 100 ∧
    (validate_limit (some "0") (some 30)).isOk = false ∧
    (validate_limit (some "200") (some 30)).isOk = false ∧
    (validate_limit (some "abc") (some 30)).isOk = false ∧
    (∀ d, validate_limit none d = .ok (d.getD DEFAULT_TWEET_LIMIT)) ∧
    (∀ s d, pyInt s = none → (validate_limit (some s) d).isOk = false) ∧
    (∀ s d n, pyInt s = some n → n < MIN_TWEET_LIMIT →
      (validate_limit (some s) d).isOk = false) ∧
    (∀ s d n, pyInt s = some n → n > MAX_TWEET_LIMIT →
      (validate_limit (some s) d).isOk = false) ∧
    (∀ s d n, pyInt s = some n → MIN_TWEET_LIMIT ≤ n → n ≤ MAX_TWEET_LIMIT →
      validate_limit (some s) d = .ok n) := by
  refine ⟨rfl, rfl, rfl, rfl, by decide, by decide, by decide,
    fun d => rfl, ?_, ?_, ?_, ?_⟩
  · intro s d hn
    simp only [validate_limit, hn]
    rfl
  · intro s d n hn hlt
    simp only [validate_limit, hn, if_pos hlt]
    rfl
  · intro s d n hn hgt
    have hnot : ¬ n < MIN_TWEET_LIMIT := by
      simp only [MIN_TWEET_LIMIT]
      simp only [MAX_TWEET_LIMIT] at hgt
      omega
    simp only [validate_limit, hn, if_neg hnot, if_pos hgt]
    rfl
  · intro s d n hn h1 h2
    have hnot1 : ¬ n < MIN_TWEET_LIMIT := by omega
    have hnot2 : ¬ n > MAX_TWEET_LIMIT := by
      simp only [MAX_TWEET_LIMIT] at h2 ⊢
      omega
    simp [validate_limit, hn, if_neg hnot1, if_neg hnot2]

/-- Witness for C7's general clause at raw value "7". -/
theorem validate_limit_spec_witness :
    (pyInt "7" = some 7 ∧ MIN_TWEET_LIMIT ≤ (7 : Int) ∧ (7 : Int) ≤ MAX_TWEET_LIMIT) ∧
    validate_limit (some "7") none = .ok 7 :=
  ⟨⟨by decide, by decide, by decide⟩,
    validate_limit_spec.2.2.2.2.2.2.2.2.2.2.2 "7" none 7
      (by decide) (by decide) (by decide)⟩

/-- C8: the synthetic `get_user_tweets` resolves the account once and
every returned tweet carries it: the matching pool account when the
normalized handle matches an entry's href case-insensitively, otherwise
one synthesized account with title-cased fullname, "/" ++ handle as
href, and id in `[1000000, 99999999]`. -/
theorem mock_user_account_resolution (gd : Nat → String) (st : PyRand)
    (username : String) (n : Int) (h : username ≠ "") :
    ∃ l st2 a, mock_get_user_tweets gd st username n = .ok (l, st2) ∧
      (∀ t ∈ l, t.account = a) ∧
      ((∃ acc, findAccount (normalize_username username) = some acc ∧ a = acc) ∨
        (findAccount (normalize_username username) = none ∧
          a.fullname = pyTitle (normalize_username username) ∧
          a.href = "/" ++ normalize_username username ∧
          1000000 ≤ a.id ∧ a.id ≤ 99999999)) := by
  obtain ⟨l, st2, a, he, -, hacc, hcase⟩ := mock_user_spec gd st username n h
  exact ⟨l, st2, a, he, hacc, hcase⟩

/-- Witness for C8 at handle "unknownuser123", limit 3. -/
theorem mock_user_account_resolution_witness :
    (("unknownuser123" : String) ≠ "") ∧
    (∃ l st2 a, mock_get_user_tweets fixedDate ⟨42⟩ "unknownuser123" 3 = .ok (l, st2) ∧
      (∀ t ∈ l, t.account = a) ∧
      ((∃ acc, findAccount (normalize_username "unknownuser123") = some acc ∧ a = acc) ∨
        (findAccount (normalize_username "unknownuser123") = none ∧
          a.fullname = pyTitle (normalize_username "unknownuser123") ∧
          a.href = "/" ++ normalize_username "unknownuser123" ∧
          1000000 ≤ a.id ∧ a.id ≤ 99999999))) :=
  ⟨by decide,
    mock_user_account_resolution fixedDate ⟨42⟩ "unknownuser123" 3 (by decide)⟩

/-- C9 counterexample: out-of-range limits are not rejected: the
synthetic backend succeeds at limit 0 (returning nothing) and at limit
101 (more than the maximum). -/
theorem out_of_range_limit_not_rejected :
    mock_get_tweets_by_hashtag fixedDate ⟨42⟩ "python" 0 = .ok ([], ⟨42⟩) ∧
    (mock_get_tweets_by_hashtag fixedDate ⟨42⟩ "python" 101).isOk = true := by
  exact ⟨rfl, by decide⟩

/-- C9 amended: no implementation re-checks the limit: for every limit
whatsoever, with a non-empty key the synthetic operations succeed
(yielding `limit.toNat` tweets), and the upstream backend merely clamps
the requested page size to `min(limit, 100)` without failing. -/
theorem no_defensive_limit_check (gd : Nat → String) (st : PyRand)
    (tag handle : String) (n : Int) (ht : tag ≠ "") (hh : handle ≠ "") :
    (∃ l st2, mock_get_tweets_by_hashtag gd st tag n = .ok (l, st2) ∧
      l.length = n.toNat) ∧
    (∃ l st2, mock_get_user_tweets gd st handle n = .ok (l, st2) ∧
      l.length = n.toNat) ∧
    api_max_results n = min n 100 := by
  refine ⟨?_, ?_, rfl⟩
  · obtain ⟨l, st2, he, hl, -⟩ := mock_hashtag_spec gd st tag n ht
    exact ⟨l, st2, he, hl⟩
  · obtain ⟨l, st2, a, he, hl, -, -⟩ := mock_user_spec gd st handle n hh
    exact ⟨l, st2, he, hl⟩

/-- Witness for the amended C9 at limit 101 (out of range above). -/
theorem no_defensive_limit_check_witness :
    (("python" : String) ≠ "" ∧ ("twitter" : String) ≠ "") ∧
    ((∃ l st2, mock_get_tweets_by_hashtag fixedDate ⟨42⟩ "python" 101 = .ok (l, st2) ∧
      l.length = (101 : Int).toNat) ∧
    (∃ l st2, mock_get_user_tweets fixedDate ⟨42⟩ "twitter" 101 = .ok (l, st2) ∧
      l.length = (101 : Int).toNat) ∧
    api_max_results 101 = min 101 100) :=
  ⟨⟨by decide, by decide⟩,
    no_defensive_limit_check fixedDate ⟨42⟩ "python" "twitter" 101
      (by decide) (by decide)⟩

/-- C10: for every limit `n ≤ 0` and non-empty key both synthetic
operations return the empty list without error: the generation loop
runs zero times and no limit bound is checked. -/
theorem nonpositive_limit_empty (gd : Nat → String) (st : PyRand)
    (tag handle : String) (n : Int) (hn : n ≤ 0) (ht : tag ≠ "") (hh : handle ≠ "") :
    (∃ st2, mock_get_tweets_by_hashtag gd st tag n = .ok ([], st2)) ∧
    (∃ st2, mock_get_user_tweets gd st handle n = .ok ([], st2)) := by
  have htn : n.toNat = 0 := by omega
  constructor
  · obtain ⟨l, st2, he, hl, -⟩ := mock_hashtag_spec gd st tag n ht
    have : l = [] := List.length_eq_zero.mp (by rw [hl, htn])
    exact ⟨st2, this ▸ he⟩
  · obtain ⟨l, st2, a, he, hl, -, -⟩ := mock_user_spec gd st handle n hh
    have : l = [] := List.length_eq_zero.mp (by rw [hl, htn])
    exact ⟨st2, this ▸ he⟩

/-- Witness for C10 at limit -1. -/
theorem nonpositive_limit_empty_witness :
    ((-1 : Int) ≤ 0 ∧ ("python" : String) ≠ "" ∧ ("twitter" : String) ≠ "") ∧
    ((∃ st2, mock_get_tweets_by_hashtag fixedDate ⟨42⟩ "python" (-1) = .ok ([], st2)) ∧
     (∃ st2, mock_get_user_tweets fixedDate ⟨42⟩ "twitter" (-1) = .ok ([], st2))) :=
  ⟨⟨by decide, by decide, by decide⟩,
    nonpositive_limit_empty fixedDate ⟨42⟩ "python" "twitter" (-1)
      (by decide) (by decide) (by decide)⟩

end TwitterApi
